import Mathlib

/-!
Verification of the ScrollSnap scroll-capture and compositing engine.

The definitions below are shallow embeddings of the JavaScript source:
pure computations (tile-height sequences, crop-rectangle derivation,
clamping) become Lean functions on `ℚ`/`ℤ`, and the stateful capture
orchestration (scroll offset, fixed-element visibility, scrollbar styles)
becomes explicit state passing over small state structures.  JavaScript
`Math.ceil`/`Math.round` on numbers are modelled by `Int.ceil`/`round`
on `ℚ`.
-/

/-- A rectangle in CSS-pixel coordinates, as used by the selection and
crop logic (`{x, y, width, height}` objects in the source). -/
structure SelRect where
  x : ℚ
  y : ℚ
  w : ℚ
  h : ℚ
  deriving DecidableEq, Repr

/-- A scroll offset (`{x, y}` objects returned by
`getPageScrollPosition` / `getContainerScrollPosition`). -/
structure ScrollPos where
  x : ℚ
  y : ℚ
  deriving DecidableEq, Repr

/-! ## `cropImage` (background script): crop-rectangle clamping -/

/-- The result of the bounds-clamping phase of `cropImage`:
the final `srcX, srcY, srcW, srcH` passed to `drawImage`. -/
structure CropResult where
  sx : ℤ
  sy : ℤ
  sw : ℤ
  sh : ℤ
  deriving DecidableEq, Repr

/-- The clamping chain of `cropImage` on the already-rounded
device-pixel values, translated statement by statement:

* if `srcX ≥ img.width` then `srcX := max 0 (img.width - srcW)`;
* if `srcY ≥ img.height` then `srcY := max 0 (img.height - srcH)`;
* negative `srcX`/`srcY` are folded into the width/height and clamped to 0;
* right/bottom overflow shrinks the width/height;
* finally `srcW`/`srcH` are floored to 1 and `srcX`/`srcY` clamped into
  `[0, dim-1]`. -/
def cropClamp (sx0 sy0 sw0 sh0 W H : ℤ) : CropResult :=
  let sx1 := if sx0 ≥ W then max 0 (W - sw0) else sx0
  let sy1 := if sy0 ≥ H then max 0 (H - sh0) else sy0
  let sw1 := if sx1 < 0 then sw0 + sx1 else sw0
  let sx2 := if sx1 < 0 then 0 else sx1
  let sh1 := if sy1 < 0 then sh0 + sy1 else sh0
  let sy2 := if sy1 < 0 then 0 else sy1
  let sw2 := if sx2 + sw1 > W then W - sx2 else sw1
  let sh2 := if sy2 + sh1 > H then H - sy2 else sh1
  { sx := max 0 (min sx2 (W - 1))
    sy := max 0 (min sy2 (H - 1))
    sw := max 1 sw2
    sh := max 1 sh2 }

/-- `cropImage(dataUrl, rect, format, quality, dpr)` restricted to its
geometric content: the input rectangle is scaled by `dpr` and rounded
(`Math.round(rect.x * dpr)` etc.), then clamped against the source
image bounds by `cropClamp`. -/
def cropImageRect (rect : SelRect) (dpr : ℚ) (W H : ℤ) : CropResult :=
  cropClamp (round (rect.x * dpr)) (round (rect.y * dpr))
    (round (rect.w * dpr)) (round (rect.h * dpr)) W H

/-- Core 1-D safety fact behind C5, stated on the integer inputs of
`cropClamp`: the final rectangle is inside `[0,W] × [0,H]` with
positive extent. -/
theorem cropClamp_safe (sx0 sy0 sw0 sh0 W H : ℤ) (hW : 1 ≤ W) (hH : 1 ≤ H) :
    0 ≤ (cropClamp sx0 sy0 sw0 sh0 W H).sx ∧
    0 ≤ (cropClamp sx0 sy0 sw0 sh0 W H).sy ∧
    1 ≤ (cropClamp sx0 sy0 sw0 sh0 W H).sw ∧
    1 ≤ (cropClamp sx0 sy0 sw0 sh0 W H).sh ∧
    (cropClamp sx0 sy0 sw0 sh0 W H).sx + (cropClamp sx0 sy0 sw0 sh0 W H).sw ≤ W ∧
    (cropClamp sx0 sy0 sw0 sh0 W H).sy + (cropClamp sx0 sy0 sw0 sh0 W H).sh ≤ H := by
  refine ⟨?_, ?_, ?_, ?_, ?_, ?_⟩ <;>
    (unfold cropClamp; dsimp only; split_ifs <;> omega)

/-! ## `captureFullPage` (background script): tile-height sequence -/

/-- `totalScrolls = Math.ceil(scrollHeight / viewportHeight)`. -/
def fullPageTotalScrolls (scrollHeight viewportHeight : ℚ) : ℕ :=
  (⌈scrollHeight / viewportHeight⌉).toNat

/-- `totalHeight = Math.ceil(scrollHeight * dpr)`: the device-pixel
height of the final stitched canvas. -/
def fullPageTotalHeight (scrollHeight dpr : ℚ) : ℤ :=
  ⌈scrollHeight * dpr⌉

/-- The sequence of recorded `height` fields of the `screenshots` array
built by `captureFullPage`, in device pixels.  `cvh` is
`captureViewportHeight`, the measured height of the first captured
image.  The first entry is pushed before the loop with height `cvh`;
each loop iteration `i ∈ [1, totalScrolls)` pushes `cvh`, except the
last, which pushes `totalHeight - i * cvh` unless that is `≤ 0`, in
which case it falls back to `cvh`. -/
def fullPageTileHeights (scrollHeight viewportHeight dpr : ℚ) (cvh : ℤ) : List ℤ :=
  let totalHeight := fullPageTotalHeight scrollHeight dpr
  let n := fullPageTotalScrolls scrollHeight viewportHeight
  cvh :: (List.range' 1 (n - 1)).map (fun i =>
    if i = n - 1 then
      (if totalHeight - (i : ℤ) * cvh ≤ 0 then cvh else totalHeight - (i : ℤ) * cvh)
    else cvh)

/-- C1 (amended): provided `viewportHeight ≤ contentHeight` (and the
first captured tile is exactly `viewportHeight * dpr` device pixels
tall), full-page mode records `totalScrolls = ⌈contentHeight /
viewportHeight⌉` tile heights; they are `cvh` repeated followed by the
exact positive remainder, they sum to `⌈contentHeight * dpr⌉`, and the
last one is the exact remainder, positive and at most one tile. -/
theorem fullPage_tileHeights_spec (sH vH dpr : ℚ) (cvh : ℤ)
    (hvH : 0 < vH) (hle : vH ≤ sH) (hdpr : 0 < dpr) (hcvh : (cvh : ℚ) = vH * dpr) :
    fullPageTileHeights sH vH dpr cvh =
      List.replicate (fullPageTotalScrolls sH vH - 1) cvh ++
        [fullPageTotalHeight sH dpr -
          ((fullPageTotalScrolls sH vH - 1 : ℕ) : ℤ) * cvh] ∧
    (fullPageTileHeights sH vH dpr cvh).length = fullPageTotalScrolls sH vH ∧
    (fullPageTileHeights sH vH dpr cvh).sum = fullPageTotalHeight sH dpr ∧
    0 < fullPageTotalHeight sH dpr - ((fullPageTotalScrolls sH vH - 1 : ℕ) : ℤ) * cvh ∧
    fullPageTotalHeight sH dpr - ((fullPageTotalScrolls sH vH - 1 : ℕ) : ℤ) * cvh ≤ cvh := by
  have hsH : 0 < sH := lt_of_lt_of_le hvH hle
  set n := fullPageTotalScrolls sH vH with hn
  set T := fullPageTotalHeight sH dpr with hT
  have hone : (1 : ℚ) ≤ sH / vH := (one_le_div hvH).mpr hle
  have hceil1 : (1 : ℤ) ≤ ⌈sH / vH⌉ := by
    calc (1 : ℤ) = ⌈(1 : ℚ)⌉ := by norm_num
    _ ≤ ⌈sH / vH⌉ := Int.ceil_le_ceil hone
  have hncast : (n : ℤ) = ⌈sH / vH⌉ := by
    rw [hn, fullPageTotalScrolls, Int.toNat_of_nonneg (le_trans (by norm_num) hceil1)]
  have hn1 : 1 ≤ n := by
    have : (1 : ℤ) ≤ (n : ℤ) := hncast ▸ hceil1
    exact_mod_cast this
  have hnQ : ((n : ℚ)) = ((⌈sH / vH⌉ : ℤ) : ℚ) := by exact_mod_cast hncast
  -- (n - 1) * cvh < T ≤ n * cvh
  have hsub : ((n - 1 : ℕ) : ℚ) = (n : ℚ) - 1 := by
    push_cast [Nat.cast_sub hn1]
    ring
  have hlt : ((n - 1 : ℕ) : ℤ) * cvh < T := by
    have h1 : (n : ℚ) - 1 < sH / vH := by
      have := Int.ceil_lt_add_one (sH / vH)
      rw [hnQ]
      push_cast at this ⊢
      linarith
    have h2 : ((n : ℚ) - 1) * vH < sH := by
      calc ((n : ℚ) - 1) * vH < (sH / vH) * vH := mul_lt_mul_of_pos_right h1 hvH
        _ = sH := div_mul_cancel₀ sH (ne_of_gt hvH)
    have h3 : (((n - 1 : ℕ) : ℤ) * cvh : ℚ) < sH * dpr := by
      push_cast [hsub, hcvh]
      calc ((n : ℚ) - 1) * (vH * dpr) = (((n : ℚ) - 1) * vH) * dpr := by ring
        _ < sH * dpr := mul_lt_mul_of_pos_right h2 hdpr
    have h4 : sH * dpr ≤ (T : ℚ) := by rw [hT, fullPageTotalHeight]; exact Int.le_ceil _
    exact_mod_cast lt_of_lt_of_le h3 h4
  have hleT : T ≤ (n : ℤ) * cvh := by
    have h1 : sH / vH ≤ (n : ℚ) := by rw [hnQ]; exact Int.le_ceil _
    have h2 : sH ≤ (n : ℚ) * vH := by
      calc sH = (sH / vH) * vH := (div_mul_cancel₀ sH (ne_of_gt hvH)).symm
        _ ≤ (n : ℚ) * vH := mul_le_mul_of_nonneg_right h1 (le_of_lt hvH)
    have h3 : sH * dpr ≤ (((n : ℤ) * cvh : ℤ) : ℚ) := by
      push_cast [hcvh]
      calc sH * dpr ≤ ((n : ℚ) * vH) * dpr := mul_le_mul_of_nonneg_right h2 (le_of_lt hdpr)
        _ = (n : ℚ) * (vH * dpr) := by ring
    rw [hT, fullPageTotalHeight]
    exact Int.ceil_le.mpr h3
  -- the list shape
  have hlist : fullPageTileHeights sH vH dpr cvh =
      List.replicate (n - 1) cvh ++ [T - ((n - 1 : ℕ) : ℤ) * cvh] := by
    rw [fullPageTileHeights]
    rw [← hn, ← hT]
    rcases Nat.exists_eq_add_of_le hn1 with ⟨m, hm⟩
    rcases Nat.eq_zero_or_pos m with hm0 | hmpos
    · -- n = 1 : single tile, and T = cvh because sH = vH
      subst hm0
      have hn1' : n = 1 := by omega
      have hsv : sH = vH := by
        have h1 : sH ≤ (n : ℚ) * vH := by
          have h1' : sH / vH ≤ (n : ℚ) := by rw [hnQ]; exact Int.le_ceil _
          calc sH = (sH / vH) * vH := (div_mul_cancel₀ sH (ne_of_gt hvH)).symm
            _ ≤ (n : ℚ) * vH := mul_le_mul_of_nonneg_right h1' (le_of_lt hvH)
        rw [hn1'] at h1
        push_cast at h1
        linarith
      have hTC : T = cvh := by
        rw [hT, fullPageTotalHeight, hsv, ← hcvh, Int.ceil_intCast]
      simp [hn1', hTC]
    · -- n = m + 1 with m ≥ 1
      have hn2 : n - 1 = (m - 1) + 1 := by omega
      rw [hn2, List.range'_concat]
      have hidx : 1 + 1 * (m - 1) = m - 1 + 1 := by omega
      rw [hidx, List.map_append]
      have hmap : (List.range' 1 (m - 1)).map (fun i =>
          if i = m - 1 + 1 then
            (if T - (i : ℤ) * cvh ≤ 0 then cvh else T - (i : ℤ) * cvh)
          else cvh) = List.replicate (m - 1) cvh := by
        rw [List.eq_replicate_iff]
        constructor
        · simp
        · intro b hb
          rcases List.mem_map.mp hb with ⟨i, hi, hfi⟩
          rcases List.mem_range'_1.mp hi with ⟨hi1, hi2⟩
          have hne : i ≠ m - 1 + 1 := by omega
          rw [if_neg hne] at hfi
          exact hfi.symm
      rw [hmap]
      have hlt' : ¬ (T - ((m - 1 + 1 : ℕ) : ℤ) * cvh ≤ 0) := by
        have h := hlt
        rw [hn2] at h
        omega
      rw [List.map_cons, List.map_nil, if_pos rfl, if_neg hlt']
      simp [List.replicate_succ]
  have hprod : ((n - 1 : ℕ) : ℤ) * cvh = (n : ℤ) * cvh - cvh := by
    push_cast [Nat.cast_sub hn1]
    ring
  refine ⟨hlist, ?_, ?_, by omega, by omega⟩
  · rw [hlist]
    simp
    omega
  · rw [hlist, List.sum_append, List.sum_replicate, List.sum_cons, List.sum_nil,
      nsmul_eq_mul]
    ring

/-- Witness for C1 (amended) at `scrollHeight = 250`, `viewportHeight = 100`,
`dpr = 2`, `cvh = 200`: three tiles `[200, 200, 100]` summing to `500`. -/
theorem fullPage_tileHeights_spec_witness :
    (0 : ℚ) < 100 ∧ (100 : ℚ) ≤ 250 ∧ (0 : ℚ) < 2 ∧ ((200 : ℤ) : ℚ) = 100 * 2 ∧
    (fullPageTileHeights 250 100 2 200 =
      List.replicate (fullPageTotalScrolls 250 100 - 1) 200 ++
        [fullPageTotalHeight 250 2 -
          ((fullPageTotalScrolls 250 100 - 1 : ℕ) : ℤ) * 200] ∧
    (fullPageTileHeights 250 100 2 200).length = fullPageTotalScrolls 250 100 ∧
    (fullPageTileHeights 250 100 2 200).sum = fullPageTotalHeight 250 2 ∧
    0 < fullPageTotalHeight 250 2 - ((fullPageTotalScrolls 250 100 - 1 : ℕ) : ℤ) * 200 ∧
    fullPageTotalHeight 250 2 - ((fullPageTotalScrolls 250 100 - 1 : ℕ) : ℤ) * 200 ≤ 200) :=
  ⟨by norm_num, by norm_num, by norm_num, by norm_num,
    fullPage_tileHeights_spec 250 100 2 200 (by norm_num) (by norm_num)
      (by norm_num) (by norm_num)⟩

/-- Counterexample to C1 as stated: with `contentHeight = 50 <
viewportHeight = 100` and `dpr = 1` (so `cvh = 100`), full-page mode
records a single tile of height `100`, whose sum is `100`, not
`⌈contentHeight * dpr⌉ = 50`; the single (last) tile is also not
truncated to the remainder. -/
theorem fullPage_tileHeights_cex :
    fullPageTileHeights 50 100 1 100 = [100] ∧
    fullPageTotalHeight 50 1 = 50 ∧
    (fullPageTileHeights 50 100 1 100).sum ≠ fullPageTotalHeight 50 1 := by
  have h1 : fullPageTotalScrolls 50 100 = 1 := by
    rw [fullPageTotalScrolls]
    have hc : (⌈(50 : ℚ) / 100⌉ : ℤ) = 1 := by
      rw [Int.ceil_eq_iff]
      norm_num
    rw [hc]
    rfl
  have h2 : fullPageTotalHeight 50 1 = 50 := by
    rw [fullPageTotalHeight]
    norm_num
  have h3 : fullPageTileHeights 50 100 1 100 = [100] := by
    simp [fullPageTileHeights, h1, h2]
  refine ⟨h3, h2, ?_⟩
  rw [h3, h2]
  decide

/-! ## `hideScrollbar` / `restoreScrollbar`: scrollbar style lease -/

/-- The six inline style values saved by `hideScrollbar` into
`window.__scrollCaptureOriginalOverflow`. -/
structure SavedOverflow where
  htmlOverflow : String
  htmlOverflowY : String
  bodyOverflow : String
  bodyOverflowY : String
  htmlScrollbarWidth : String
  bodyScrollbarWidth : String
  deriving DecidableEq, Repr

/-- The page style state touched by the scrollbar lease: the six inline
style values, whether the `__scroll-capture-hide-scrollbar` style
element is currently in the document, and the saved record (if any). -/
structure StyleState where
  htmlOverflow : String
  htmlOverflowY : String
  bodyOverflow : String
  bodyOverflowY : String
  htmlScrollbarWidth : String
  bodyScrollbarWidth : String
  injected : Bool
  saved : Option SavedOverflow
  deriving DecidableEq, Repr

/-- `hideScrollbar`: saves the six current inline values, sets
`scrollbar-width: none` on both `html` and `body`, and appends the
scrollbar-hiding `<style>` element. -/
def hideScrollbarFn (s : StyleState) : StyleState :=
  { s with
    saved := some
      { htmlOverflow := s.htmlOverflow
        htmlOverflowY := s.htmlOverflowY
        bodyOverflow := s.bodyOverflow
        bodyOverflowY := s.bodyOverflowY
        htmlScrollbarWidth := s.htmlScrollbarWidth
        bodyScrollbarWidth := s.bodyScrollbarWidth }
    htmlScrollbarWidth := "none"
    bodyScrollbarWidth := "none"
    injected := true }

/-- `restoreScrollbar`: removes the injected style element, and if a
saved record exists, writes all six saved values back and deletes the
record. -/
def restoreScrollbarFn (s : StyleState) : StyleState :=
  let s1 := { s with injected := false }
  match s1.saved with
  | none => s1
  | some o =>
    { s1 with
      htmlOverflow := o.htmlOverflow
      htmlOverflowY := o.htmlOverflowY
      bodyOverflow := o.bodyOverflow
      bodyOverflowY := o.bodyOverflowY
      htmlScrollbarWidth := o.htmlScrollbarWidth
      bodyScrollbarWidth := o.bodyScrollbarWidth
      saved := none }

/-! ## `captureFullPage`: effect trace (scroll offset, fixed elements,
scrollbar), with an optional injected capture failure -/

/-- The page state owned by a full-page capture operation. -/
structure FPState where
  scrollY : ℚ
  fixedHidden : Bool
  styles : StyleState
  deriving DecidableEq, Repr

/-- `window.scrollTo` semantics used by `scrollToPosition`: an instant
jump, clamped by the browser into `[0, scrollHeight - viewportHeight]`
(never negative). -/
def fpScrollTo (sH vH : ℚ) (s : FPState) (y : ℚ) : FPState :=
  { s with scrollY := max 0 (min y (max 0 (sH - vH))) }

/-- The `catch` block of `captureFullPage`: restore fixed/sticky
elements, restore the scrollbar — and nothing else (in particular, the
scroll offset is not touched). -/
def fpCatch (s : FPState) : FPState :=
  { s with fixedHidden := false, styles := restoreScrollbarFn s.styles }

/-- The capture loop of `captureFullPage` over the scroll indices
`[1, totalScrolls)`: each iteration scrolls to `i * viewportHeight` and
then captures; if the capture at index `i` throws (`failAt = some i`),
the loop aborts with the state at that point (`Except.error`). -/
def fpLoop (sH vH : ℚ) (failAt : Option ℕ) : List ℕ → FPState → Except FPState FPState
  | [], s => .ok s
  | i :: rest, s =>
    let s1 := fpScrollTo sH vH s ((i : ℚ) * vH)
    if failAt = some i then .error s1 else fpLoop sH vH failAt rest s1

/-- The effect trace of `captureFullPage` on the page state, following
the source line by line: save `originalScrollY`; `hideScrollbar`;
scroll to the top; capture tile 0 (which may throw, `failAt = some 0`);
if more than one tile is needed, `hideFixedElements`; run the capture
loop; on success `restoreFixedElements` (when hidden),
`restoreScrollbar` and scroll back to `originalScrollY`; on any throw,
run the `catch` block instead.  Returns `(success, final state)`. -/
def captureFullPageRun (sH vH : ℚ) (failAt : Option ℕ) (s0 : FPState) : Bool × FPState :=
  let originalScrollY := s0.scrollY
  let s1 := { s0 with styles := hideScrollbarFn s0.styles }
  let s2 := fpScrollTo sH vH s1 0
  if failAt = some 0 then (false, fpCatch s2)
  else
    let n := fullPageTotalScrolls sH vH
    let s3 := if 1 < n then { s2 with fixedHidden := true } else s2
    match fpLoop sH vH failAt (List.range' 1 (n - 1)) s3 with
    | .error sf => (false, fpCatch sf)
    | .ok s4 =>
      let s5 := if 1 < n then { s4 with fixedHidden := false } else s4
      let s6 := { s5 with styles := restoreScrollbarFn s5.styles }
      let s7 := fpScrollTo sH vH s6 originalScrollY
      (true, s7)

/-- State extractor for loop outcomes (both the aborted and the
completed loop leave a definite page state behind). -/
def exceptState : Except FPState FPState → FPState
  | .ok s => s
  | .error s => s

/-- The capture loop never touches the style state or the fixed-element
visibility flag: only the scroll offset changes. -/
theorem fpLoop_preserves (sH vH : ℚ) (failAt : Option ℕ) :
    ∀ (l : List ℕ) (s : FPState),
      (exceptState (fpLoop sH vH failAt l s)).styles = s.styles ∧
      (exceptState (fpLoop sH vH failAt l s)).fixedHidden = s.fixedHidden := by
  intro l
  induction l with
  | nil => intro s; exact ⟨rfl, rfl⟩
  | cons i rest ih =>
    intro s
    rw [fpLoop]
    split
    · exact ⟨rfl, rfl⟩
    · exact ih _

/-- If the capture at index `i` throws, the loop over consecutive
indices `[j, j+k)` (with `j ≤ i < j+k`) aborts in the state scrolled to
`i * viewportHeight` (browser-clamped), all other fields untouched. -/
theorem fpLoop_fail (sH vH : ℚ) (i : ℕ) :
    ∀ (k j : ℕ) (s : FPState), j ≤ i → i < j + k →
      fpLoop sH vH (some i) (List.range' j k) s =
        .error { s with scrollY := max 0 (min ((i : ℚ) * vH) (max 0 (sH - vH))) } := by
  intro k
  induction k with
  | zero => intro j s h1 h2; omega
  | succ k ih =>
    intro j s h1 h2
    rw [List.range'_succ, fpLoop]
    by_cases hj : i = j
    · subst hj
      rw [if_pos rfl]
      rfl
    · rw [if_neg (by simpa using hj)]
      have := ih (j + 1) (fpScrollTo sH vH s ((j : ℚ) * vH)) (by omega) (by omega)
      rw [this]
      rfl

/-- C2 (amended): if the capture of tile `i` throws mid-operation,
`captureFullPage` returns a failure result, and the catch block
restores the fixed/sticky elements' visibility and the scrollbar
styles — but the scroll offset is NOT restored: it is left at the
failing tile's scroll target `i * viewportHeight` (browser-clamped),
not at the original pre-operation offset.  The scroll offset is
restored only on the success path. -/
theorem captureFullPage_failure_cleanup (sH vH : ℚ) (i : ℕ) (s0 : FPState)
    (hi : i < fullPageTotalScrolls sH vH) :
    (captureFullPageRun sH vH (some i) s0).1 = false ∧
    (captureFullPageRun sH vH (some i) s0).2.fixedHidden = false ∧
    (captureFullPageRun sH vH (some i) s0).2.styles =
      restoreScrollbarFn (hideScrollbarFn s0.styles) ∧
    (captureFullPageRun sH vH (some i) s0).2.scrollY =
      max 0 (min ((i : ℚ) * vH) (max 0 (sH - vH))) := by
  rw [captureFullPageRun]
  dsimp only
  by_cases h0 : i = 0
  · subst h0
    rw [if_pos rfl]
    refine ⟨rfl, rfl, rfl, ?_⟩
    simp [fpCatch, fpScrollTo]
  · rw [if_neg (by simpa using h0)]
    have hn2 : 1 < fullPageTotalScrolls sH vH := by omega
    rw [if_pos hn2]
    rw [fpLoop_fail sH vH i (fullPageTotalScrolls sH vH - 1) 1 _ (by omega) (by omega)]
    exact ⟨rfl, rfl, rfl, rfl⟩

/-- Witness for C2 (amended): `scrollHeight = 300`, `viewport = 100`
(three tiles), capture of tile 1 throws. -/
theorem captureFullPage_failure_cleanup_witness :
    1 < fullPageTotalScrolls 300 100 ∧
    ((captureFullPageRun 300 100 (some 1)
        ⟨42, false, ⟨"visible", "auto", "", "", "", "", false, none⟩⟩).1 = false ∧
      (captureFullPageRun 300 100 (some 1)
        ⟨42, false, ⟨"visible", "auto", "", "", "", "", false, none⟩⟩).2.fixedHidden = false ∧
      (captureFullPageRun 300 100 (some 1)
        ⟨42, false, ⟨"visible", "auto", "", "", "", "", false, none⟩⟩).2.styles =
        restoreScrollbarFn (hideScrollbarFn ⟨"visible", "auto", "", "", "", "", false, none⟩) ∧
      (captureFullPageRun 300 100 (some 1)
        ⟨42, false, ⟨"visible", "auto", "", "", "", "", false, none⟩⟩).2.scrollY =
        max 0 (min ((1 : ℚ) * 100) (max 0 (300 - 100)))) := by
  have hn : fullPageTotalScrolls 300 100 = 3 := by
    rw [fullPageTotalScrolls]
    have hc : (⌈(300 : ℚ) / 100⌉ : ℤ) = 3 := by
      rw [Int.ceil_eq_iff]
      norm_num
    rw [hc]
    rfl
  have h1 : 1 < fullPageTotalScrolls 300 100 := by omega
  exact ⟨h1, captureFullPage_failure_cleanup 300 100 1 _ (by omega)⟩

/-- Counterexample to C2 as stated: a full-page capture starting at
scroll offset `42` on a `300`-tall page with a `100`-tall viewport,
whose second tile capture throws, ends with the scroll offset at `100`
(the failing tile's scroll target), not restored to `42` — while the
fixed elements are indeed restored and the result is a failure. -/
theorem captureFullPage_failure_cex :
    (captureFullPageRun 300 100 (some 1)
      ⟨42, false, ⟨"visible", "auto", "", "", "", "", false, none⟩⟩).1 = false ∧
    (captureFullPageRun 300 100 (some 1)
      ⟨42, false, ⟨"visible", "auto", "", "", "", "", false, none⟩⟩).2.fixedHidden = false ∧
    (captureFullPageRun 300 100 (some 1)
      ⟨42, false, ⟨"visible", "auto", "", "", "", "", false, none⟩⟩).2.scrollY = 100 ∧
    (100 : ℚ) ≠ 42 := by
  have hn : fullPageTotalScrolls 300 100 = 3 := by
    rw [fullPageTotalScrolls]
    have hc : (⌈(300 : ℚ) / 100⌉ : ℤ) = 3 := by
      rw [Int.ceil_eq_iff]
      norm_num
    rw [hc]
    rfl
  rw [captureFullPageRun]
  dsimp only
  rw [if_neg (by simp), hn, if_pos (by omega)]
  have hr : (3 : ℕ) - 1 = 2 := rfl
  rw [hr, fpLoop_fail 300 100 1 2 1 _ (by omega) (by omega)]
  refine ⟨rfl, rfl, ?_, by norm_num⟩
  dsimp only [fpCatch]
  norm_num

/-- `restoreScrollbar` undoes `hideScrollbar` exactly, provided no
stale saved record or injected element was present. -/
theorem restoreScrollbar_hideScrollbar (st : StyleState)
    (h1 : st.saved = none) (h2 : st.injected = false) :
    restoreScrollbarFn (hideScrollbarFn st) = st := by
  cases st
  simp only [StyleState.mk.injEq] at *
  simp [hideScrollbarFn, restoreScrollbarFn, h1, h2]

/-- C10: full-page capture leases the scrollbar state: `hideScrollbar`
(run before the first tile is captured) saves the six original inline
overflow/scrollbar-width values of `html` and `body` and injects the
hiding style element; and on every exit path — success or any injected
capture failure — the injected element is removed and exactly the saved
values are written back, so the final style state equals the original
one.  No other style field is ever touched by the run. -/
theorem captureFullPage_scrollbar_lease (sH vH : ℚ) (failAt : Option ℕ) (s0 : FPState)
    (h1 : s0.styles.saved = none) (h2 : s0.styles.injected = false) :
    (hideScrollbarFn s0.styles).saved = some
      { htmlOverflow := s0.styles.htmlOverflow
        htmlOverflowY := s0.styles.htmlOverflowY
        bodyOverflow := s0.styles.bodyOverflow
        bodyOverflowY := s0.styles.bodyOverflowY
        htmlScrollbarWidth := s0.styles.htmlScrollbarWidth
        bodyScrollbarWidth := s0.styles.bodyScrollbarWidth } ∧
    (hideScrollbarFn s0.styles).injected = true ∧
    (captureFullPageRun sH vH failAt s0).2.styles = s0.styles := by
  refine ⟨rfl, rfl, ?_⟩
  have hid := restoreScrollbar_hideScrollbar s0.styles h1 h2
  rw [captureFullPageRun]
  dsimp only
  split
  · exact hid
  · have hpres := fpLoop_preserves sH vH failAt
      (List.range' 1 (fullPageTotalScrolls sH vH - 1))
      (if 1 < fullPageTotalScrolls sH vH then
        { fpScrollTo sH vH { s0 with styles := hideScrollbarFn s0.styles } 0
            with fixedHidden := true }
        else fpScrollTo sH vH { s0 with styles := hideScrollbarFn s0.styles } 0)
    have hsty : (if 1 < fullPageTotalScrolls sH vH then
        { fpScrollTo sH vH { s0 with styles := hideScrollbarFn s0.styles } 0
            with fixedHidden := true }
        else fpScrollTo sH vH { s0 with styles := hideScrollbarFn s0.styles } 0).styles =
        hideScrollbarFn s0.styles := by
      split <;> rfl
    rw [hsty] at hpres
    split
    · -- loop aborted: catch block
      next sf heq =>
        have : (exceptState (fpLoop sH vH failAt
            (List.range' 1 (fullPageTotalScrolls sH vH - 1)) _)).styles =
            hideScrollbarFn s0.styles := hpres.1
        rw [heq] at this
        simp only [exceptState] at this
        simp only [fpCatch]
        rw [this]
        exact hid
    · -- loop completed: success path
      next s4 heq =>
        have : (exceptState (fpLoop sH vH failAt
            (List.range' 1 (fullPageTotalScrolls sH vH - 1)) _)).styles =
            hideScrollbarFn s0.styles := hpres.1
        rw [heq] at this
        simp only [exceptState] at this
        have hs5 : (if 1 < fullPageTotalScrolls sH vH then
            { s4 with fixedHidden := false } else s4).styles = s4.styles := by
          split <;> rfl
        simp only [fpScrollTo]
        rw [hs5, this]
        exact hid

/-- Witness for C10: a successful three-tile run starting from a clean
style state. -/
theorem captureFullPage_scrollbar_lease_witness :
    ((⟨42, false, ⟨"visible", "auto", "", "", "", "", false, none⟩⟩ : FPState).styles.saved
        = none) ∧
    ((⟨42, false, ⟨"visible", "auto", "", "", "", "", false, none⟩⟩ : FPState).styles.injected
        = false) ∧
    ((hideScrollbarFn (⟨42, false, ⟨"visible", "auto", "", "", "", "", false, none⟩⟩ :
        FPState).styles).saved = some
      { htmlOverflow := "visible"
        htmlOverflowY := "auto"
        bodyOverflow := ""
        bodyOverflowY := ""
        htmlScrollbarWidth := ""
        bodyScrollbarWidth := "" } ∧
    (hideScrollbarFn (⟨42, false, ⟨"visible", "auto", "", "", "", "", false, none⟩⟩ :
        FPState).styles).injected = true ∧
    (captureFullPageRun 300 100 none
        ⟨42, false, ⟨"visible", "auto", "", "", "", "", false, none⟩⟩).2.styles =
      (⟨42, false, ⟨"visible", "auto", "", "", "", "", false, none⟩⟩ : FPState).styles) :=
  ⟨rfl, rfl, captureFullPage_scrollbar_lease 300 100 none _ rfl rfl⟩

/-! ## `captureScrollSelection` (background script): single-viewport
container crop -/

/-- The container geometry passed from the content script
(`containerInfo`): scroll extent, scrollbar-excluded client extent, and
the container's position in the outer viewport. -/
structure ContainerInfo where
  scrollHeight : ℚ
  clientHeight : ℚ
  clientWidth : ℚ
  viewportTop : ℚ
  viewportLeft : ℚ
  deriving DecidableEq, Repr

/-- `useContainer`: a container is used when `containerInfo` is present
and `containerInfo.scrollHeight > containerInfo.clientHeight`. -/
def useContainer (ci : ContainerInfo) : Prop :=
  ci.scrollHeight > ci.clientHeight

instance (ci : ContainerInfo) : Decidable (useContainer ci) := by
  unfold useContainer
  infer_instance

/-- The viewport-space crop rectangle computed by the
single-viewport (non-scrolling) branch of `captureScrollSelection` for
a Container surface, before dpr scaling:
`cropX = containerViewportLeft + (selectionLeft - scroll.x)`,
`cropY = containerViewportTop + (selectionTop - scroll.y)`, width
clamped so its right edge does not pass the container's
scrollbar-excluded `clientWidth`, height the selection height. -/
def containerSingleCrop (sel : SelRect) (cur : ScrollPos) (ci : ContainerInfo) : SelRect :=
  let cropX := ci.viewportLeft + (sel.x - cur.x)
  let cropY := ci.viewportTop + (sel.y - cur.y)
  let cropRight := (sel.x - cur.x) + sel.w
  let actualCropWidth :=
    if cropRight > ci.clientWidth then ci.clientWidth - (sel.x - cur.x) else sel.w
  { x := cropX, y := cropY, w := actualCropWidth, h := sel.h }

/-- The corrective-scroll test of the single-viewport container branch:
the selection must lie inside the container's visible band, otherwise
the code scrolls first and recomputes. -/
def containerNeedsScroll (sel : SelRect) (cur : ScrollPos) (ci : ContainerInfo) : Prop :=
  ci.viewportTop + (sel.y - cur.y) < ci.viewportTop ∨
  ci.viewportTop + (sel.y - cur.y) + sel.h > ci.viewportTop + ci.clientHeight

instance (sel : SelRect) (cur : ScrollPos) (ci : ContainerInfo) :
    Decidable (containerNeedsScroll sel cur ci) := by
  unfold containerNeedsScroll
  infer_instance

/-- C3: for a selection on a Container surface whose height fits in the
container and which lies inside the visible band (no corrective scroll)
and whose right edge stays inside the container's client width, the
crop rectangle is exactly
`(containerViewportLeft + (sel.x - scroll.x),
containerViewportTop + (sel.y - scroll.y), sel.w, sel.h)`. -/
theorem containerSingleCrop_spec (sel : SelRect) (cur : ScrollPos) (ci : ContainerInfo)
    (hfit : sel.h ≤ ci.clientHeight)
    (hns : ¬ containerNeedsScroll sel cur ci)
    (hw : (sel.x - cur.x) + sel.w ≤ ci.clientWidth) :
    containerSingleCrop sel cur ci =
      { x := ci.viewportLeft + (sel.x - cur.x)
        y := ci.viewportTop + (sel.y - cur.y)
        w := sel.w
        h := sel.h } := by
  rw [containerSingleCrop]
  rw [if_neg (not_lt.mpr hw)]

/-- Witness for C3, the spec's concrete instance: selection
`{x:20, y:500, w:300, h:80}` inside a container at viewport offset
`{top:40, left:10}` with client extent `600 × 800`, current scroll
`{x:0, y:450}` yields crop `{x:30, y:90, w:300, h:80}` (before dpr
scaling). -/
theorem containerSingleCrop_spec_witness :
    ((⟨20, 500, 300, 80⟩ : SelRect).h ≤
      (⟨2000, 600, 800, 40, 10⟩ : ContainerInfo).clientHeight) ∧
    (¬ containerNeedsScroll ⟨20, 500, 300, 80⟩ ⟨0, 450⟩ ⟨2000, 600, 800, 40, 10⟩) ∧
    (((⟨20, 500, 300, 80⟩ : SelRect).x - (⟨0, 450⟩ : ScrollPos).x) +
      (⟨20, 500, 300, 80⟩ : SelRect).w ≤
      (⟨2000, 600, 800, 40, 10⟩ : ContainerInfo).clientWidth) ∧
    useContainer ⟨2000, 600, 800, 40, 10⟩ ∧
    containerSingleCrop ⟨20, 500, 300, 80⟩ ⟨0, 450⟩ ⟨2000, 600, 800, 40, 10⟩ =
      ⟨30, 90, 300, 80⟩ := by
  refine ⟨by norm_num, ?_, by norm_num, by norm_num [useContainer], ?_⟩
  · unfold containerNeedsScroll
    norm_num
  · rw [containerSingleCrop_spec ⟨20, 500, 300, 80⟩ ⟨0, 450⟩ ⟨2000, 600, 800, 40, 10⟩
      (by norm_num) (by unfold containerNeedsScroll; norm_num) (by norm_num)]
    show ({ x := 10 + (20 - 0), y := 40 + (500 - 450), w := 300, h := 80 } : SelRect) = _
    norm_num

/-! ## `captureScrollSelection`: multi-viewport scroll loop -/

/-- The `while (capturedHeight < selectionHeight)` loop of
`captureScrollSelection`, recorded as the list of per-tile capture
heights (viewport space): each iteration captures
`min(stepHeight, selectionHeight - capturedHeight)` and advances
`capturedHeight` by that amount.  (A non-positive `stepHeight` would
never terminate in the source; the model returns the empty trace.) -/
def selLoop (selH step captured : ℚ) : List ℚ :=
  if h : 0 < step ∧ captured < selH then
    let ch := min step (selH - captured)
    ch :: selLoop selH step (captured + ch)
  else []
termination_by (⌈(selH - captured) / step⌉).toNat
decreasing_by
  rcases h with ⟨hstep, hlt⟩
  have hx : 0 < selH - captured := by linarith
  rcases le_total step (selH - captured) with hc | hc
  · -- ch = step: the ceiling of the quotient drops by exactly one
    have hmin : min step (selH - captured) = step := min_eq_left hc
    rw [hmin]
    have he : (selH - (captured + step)) / step = (selH - captured) / step - 1 := by
      field_simp
      ring
    have hone : (1 : ℚ) ≤ (selH - captured) / step := (one_le_div hstep).mpr hc
    have hc1 : (1 : ℤ) ≤ ⌈(selH - captured) / step⌉ := by
      calc (1 : ℤ) = ⌈(1 : ℚ)⌉ := by norm_num
      _ ≤ ⌈(selH - captured) / step⌉ := Int.ceil_le_ceil hone
    rw [he]
    have : ⌈(selH - captured) / step - 1⌉ = ⌈(selH - captured) / step⌉ - 1 := by
      rw [show (1 : ℚ) = ((1 : ℤ) : ℚ) by norm_num, Int.ceil_sub_int]
    rw [this]
    omega
  · -- ch = selH - captured: the loop finishes, the measure drops to zero
    have hmin : min step (selH - captured) = selH - captured := min_eq_right hc
    rw [hmin]
    have he : selH - (captured + (selH - captured)) = 0 := by ring
    rw [he]
    have h0 : (0 : ℚ) / step = 0 := zero_div step
    rw [h0]
    have hpos : 0 < (selH - captured) / step := div_pos hx hstep
    have hc1 : (1 : ℤ) ≤ ⌈(selH - captured) / step⌉ := Int.ceil_pos.mpr hpos
    rw [Int.ceil_zero]
    omega

/-- The per-tile crop `y` of the scroll-selection loop:
`cropY = containerViewportTop + ((selectionTop + capturedHeight) -
actualScroll.y)`, clamped to 0 when scroll imprecision drives it
negative. -/
def selScrollCropY (containerViewportTop selectionTop capturedHeight actualScrollY : ℚ) : ℚ :=
  let cropY := containerViewportTop + ((selectionTop + capturedHeight) - actualScrollY)
  if cropY < 0 then 0 else cropY

/-- The height of the stitched selection canvas:
`finalHeight = Math.round(selectionHeight * dpr)`. -/
def selFinalHeight (selH dpr : ℚ) : ℤ :=
  round (selH * dpr)

/-- Evaluation of the scroll-selection loop at the spec instance:
`selectionHeight = 250`, `stepHeight = 100` gives exactly the three
tile heights `100, 100, 50`. -/
theorem selLoop_250_100 : selLoop 250 100 0 = [100, 100, 50] := by
  have h2 : selLoop 250 100 250 = [] := by
    rw [selLoop, dif_neg (by norm_num)]
  have h1 : selLoop 250 100 200 = [50] := by
    rw [selLoop, dif_pos (by norm_num : (0 : ℚ) < 100 ∧ (200 : ℚ) < 250)]
    norm_num [min_def, h2]
  have h0 : selLoop 250 100 100 = [100, 50] := by
    rw [selLoop, dif_pos (by norm_num : (0 : ℚ) < 100 ∧ (100 : ℚ) < 250)]
    norm_num [min_def, h1]
  rw [selLoop, dif_pos (by norm_num : (0 : ℚ) < 100 ∧ (0 : ℚ) < 250)]
  norm_num [min_def, h0]

/-- C4 (amended): a `250`-tall selection with a `100`-tall viewport is
captured as exactly three tiles of heights `100, 100, 50`; each tile's
crop offset is `containerViewportTop + (selectionTop + capturedHeight -
actualScroll.y)` whenever that value is nonnegative (the code clamps
negatives to `0`); and the composited output height is
`round(selectionHeight * dpr)` — which equals `250 * dpr` exactly
whenever `250 * dpr` is an integer (in particular for every integer
`dpr`), but is the nearest integer otherwise. -/
theorem captureScrollSelection_spec :
    selLoop 250 100 0 = [100, 100, 50] ∧
    (∀ cvt st ch asy : ℚ, 0 ≤ cvt + ((st + ch) - asy) →
      selScrollCropY cvt st ch asy = cvt + ((st + ch) - asy)) ∧
    (∀ dpr : ℚ, (250 * dpr).den = 1 → ((selFinalHeight 250 dpr : ℤ) : ℚ) = 250 * dpr) := by
  refine ⟨selLoop_250_100, ?_, ?_⟩
  · intro cvt st ch asy hpos
    rw [selScrollCropY]
    rw [if_neg (not_lt.mpr hpos)]
  · intro dpr h
    have h2 : (((250 * dpr).num : ℤ) : ℚ) = 250 * dpr := (Rat.den_eq_one_iff _).mp h
    rw [selFinalHeight, ← h2, round_intCast]

/-- Witness for C4 (amended): crop offset at
`containerViewportTop = 40`, `selectionTop = 500`,
`capturedHeight = 100`, `actualScroll.y = 600`, and output height at
`dpr = 2`. -/
theorem captureScrollSelection_spec_witness :
    (0 : ℚ) ≤ 40 + ((500 + 100) - 600) ∧
    ((250 : ℚ) * 2).den = 1 ∧
    (selLoop 250 100 0 = [100, 100, 50] ∧
      selScrollCropY 40 500 100 600 = 40 + ((500 + 100) - 600) ∧
      ((selFinalHeight 250 2 : ℤ) : ℚ) = 250 * 2) := by
  have hden : ((250 : ℚ) * 2).den = 1 := by norm_num
  refine ⟨by norm_num, hden, captureScrollSelection_spec.1,
    captureScrollSelection_spec.2.1 40 500 100 600 (by norm_num),
    captureScrollSelection_spec.2.2 2 hden⟩

/-- Counterexample to C4 as stated: at `dpr = 1.25` the stitched canvas
height is `Math.round(250 * 1.25) = Math.round(312.5) = 313`, an
integer, which is not "exactly `250 * dpr = 312.5`". -/
theorem captureScrollSelection_height_cex :
    selFinalHeight 250 (5 / 4) = 313 ∧ ((313 : ℤ) : ℚ) ≠ 250 * (5 / 4) := by
  constructor
  · rw [selFinalHeight, round_eq]
    norm_num
  · norm_num

/-- C5: for every input crop rectangle (negative coordinates and
overflowing edges included), every `dpr ≥ 1` and every source image at
least `1 × 1`, the clamped crop rectangle computed by `cropImage` is
fully contained in `[0, W] × [0, H]` with width and height at least 1:
the source read is never out of bounds and the output is never empty. -/
theorem cropImage_clamp_spec (rect : SelRect) (dpr : ℚ) (W H : ℤ)
    (hdpr : 1 ≤ dpr) (hW : 1 ≤ W) (hH : 1 ≤ H) :
    0 ≤ (cropImageRect rect dpr W H).sx ∧
    0 ≤ (cropImageRect rect dpr W H).sy ∧
    1 ≤ (cropImageRect rect dpr W H).sw ∧
    1 ≤ (cropImageRect rect dpr W H).sh ∧
    (cropImageRect rect dpr W H).sx + (cropImageRect rect dpr W H).sw ≤ W ∧
    (cropImageRect rect dpr W H).sy + (cropImageRect rect dpr W H).sh ≤ H :=
  cropClamp_safe (round (rect.x * dpr)) (round (rect.y * dpr))
    (round (rect.w * dpr)) (round (rect.h * dpr)) W H hW hH

/-- Witness for C5 at the negative-origin, overflowing rectangle
`{x:-5, y:-3, w:1000, h:1000}` against a `100 × 100` tile at `dpr = 1`:
the negative coordinates are clamped to zero (not an error) and the
rectangle is shrunk to fit. -/
theorem cropImage_clamp_spec_witness :
    (1 : ℚ) ≤ 1 ∧ (1 : ℤ) ≤ 100 ∧
    (0 ≤ (cropImageRect ⟨-5, -3, 1000, 1000⟩ 1 100 100).sx ∧
      0 ≤ (cropImageRect ⟨-5, -3, 1000, 1000⟩ 1 100 100).sy ∧
      1 ≤ (cropImageRect ⟨-5, -3, 1000, 1000⟩ 1 100 100).sw ∧
      1 ≤ (cropImageRect ⟨-5, -3, 1000, 1000⟩ 1 100 100).sh ∧
      (cropImageRect ⟨-5, -3, 1000, 1000⟩ 1 100 100).sx +
        (cropImageRect ⟨-5, -3, 1000, 1000⟩ 1 100 100).sw ≤ 100 ∧
      (cropImageRect ⟨-5, -3, 1000, 1000⟩ 1 100 100).sy +
        (cropImageRect ⟨-5, -3, 1000, 1000⟩ 1 100 100).sh ≤ 100) :=
  ⟨le_refl 1, by norm_num,
    cropImage_clamp_spec ⟨-5, -3, 1000, 1000⟩ 1 100 100 (le_refl 1)
      (by norm_num) (by norm_num)⟩

/-! ## Scrollable-container detection (`findScrollableContainer`,
`scrollContainerTo`, content-script `activeContainer` cache) -/

/-- The abstraction of a page element seen by the container detector:
whether it matches one of the common content selectors, its computed
`overflow-y` (auto/scroll or not), its scroll and client heights, and
its bounding-rect extent. -/
structure Elem where
  ident : ℕ
  matchesCommonSelector : Bool
  overflowAuto : Bool
  scrollHeight : ℚ
  clientHeight : ℚ
  rectWidth : ℚ
  rectHeight : ℚ
  deriving DecidableEq, Repr

/-- `isScrollable(el)`: `overflow-y` is `auto`/`scroll` and
`scrollHeight > clientHeight + 10`. -/
def isScrollable (el : Elem) : Bool :=
  el.overflowAuto && decide (el.scrollHeight > el.clientHeight + 10)

/-- The score of a scan candidate:
`scrollableHeight * (visibleArea / viewportArea)`. -/
def elemScore (el : Elem) (vw vh : ℚ) : ℚ :=
  (el.scrollHeight - el.clientHeight) * ((el.rectWidth * el.rectHeight) / (vw * vh))

/-- One step of the best-candidate scan: keep the element if it is
scrollable, covers more than 30% of the viewport, has more than 100px
of scrollable height, and strictly beats the best score so far. -/
def scanStep (vw vh : ℚ) (acc : Option Elem × ℚ) (el : Elem) : Option Elem × ℚ :=
  if isScrollable el ∧ (el.rectWidth * el.rectHeight) / (vw * vh) > 3 / 10 ∧
      el.scrollHeight - el.clientHeight > 100 ∧ elemScore el vw vh > acc.2 then
    (some el, elemScore el vw vh)
  else acc

/-- `findScrollableContainer` (re-run in the page by every background
scroll/read step): first scrollable element matching the common
selectors wins; otherwise the best-scoring scan candidate; otherwise
none (fall back to window scrolling). -/
def findScrollableContainer (dom : List Elem) (vw vh : ℚ) : Option Elem :=
  match dom.find? (fun el => el.matchesCommonSelector && isScrollable el) with
  | some el => some el
  | none => (dom.foldl (scanStep vw vh) (none, 0)).1

/-- The element (by identity) addressed by one background
`scrollContainerTo` / `getContainerScrollPosition` call, which re-runs
`findScrollableContainer` against the page's current DOM; `none` means
the call falls back to the window. -/
def scrollContainerTargetId (dom : List Elem) (vw vh : ℚ) : Option ℕ :=
  (findScrollableContainer dom vw vh).map Elem.ident

/-- The element addressed by the content script's `scrollTo`, which
uses the `activeContainer` reference cached at mouse-down and never
re-detects. -/
def contentScrollTargetId (cache : Option Elem) : Option ℕ :=
  cache.map Elem.ident

/-- C6 (amended): each background scroll/read step of a capture
operation re-derives the surface from the page's current DOM; if every
DOM state seen by the operation's steps equals the state at interaction
start, then every step addresses exactly the surface detected at the
start.  (The content script's own steps always address the mouse-down
cache, `contentScrollTargetId`.) -/
theorem scrollContainer_targets_of_stable_dom (d0 : List Elem) (ds : List (List Elem))
    (vw vh : ℚ) (hstable : ∀ d ∈ ds, d = d0) :
    ds.map (fun d => scrollContainerTargetId d vw vh) =
      List.replicate ds.length (contentScrollTargetId (findScrollableContainer d0 vw vh)) := by
  induction ds with
  | nil => rfl
  | cons d rest ih =>
    have hd : d = d0 := hstable d (by simp)
    rw [List.map_cons, List.length_cons, List.replicate_succ, hd]
    have := ih (fun d' hd' => hstable d' (by simp [hd']))
    rw [this]
    rfl

/-- A container that matches the common selectors and is scrollable. -/
def elemA : Elem :=
  { ident := 0, matchesCommonSelector := true, overflowAuto := true
    scrollHeight := 1500, clientHeight := 600, rectWidth := 900, rectHeight := 700 }

/-- The same element after a DOM mutation made it non-scrollable. -/
def elemA2 : Elem :=
  { ident := 0, matchesCommonSelector := true, overflowAuto := false
    scrollHeight := 1500, clientHeight := 600, rectWidth := 900, rectHeight := 700 }

/-- A large scrollable region that does not match the common selectors
(found only by the scored scan). -/
def elemB : Elem :=
  { ident := 1, matchesCommonSelector := false, overflowAuto := true
    scrollHeight := 2000, clientHeight := 700, rectWidth := 900, rectHeight := 700 }

/-- Counterexample to C6 as stated: at interaction start the detector
picks element `0` (selector match); after a mid-operation DOM change,
the next background scroll step — which re-runs the detection heuristic
— addresses element `1` (scored scan), not the surface chosen at the
start of the interaction.  The surface is therefore re-derived
mid-operation, not held immutably. -/
theorem scrollContainer_rederived_cex :
    scrollContainerTargetId [elemA, elemB] 1000 800 = some 0 ∧
    scrollContainerTargetId [elemA2, elemB] 1000 800 = some 1 ∧
    (some 1 : Option ℕ) ≠ some 0 := by
  refine ⟨?_, ?_, by decide⟩
  · rw [scrollContainerTargetId, findScrollableContainer]
    norm_num [List.find?, isScrollable, elemA, elemB]
  · rw [scrollContainerTargetId, findScrollableContainer]
    norm_num [List.find?, isScrollable, elemA2, elemB, scanStep, elemScore]

/-- Witness for C6 (amended): a two-step operation over an unchanged
DOM addresses the start surface at every step. -/
theorem scrollContainer_targets_of_stable_dom_witness :
    (∀ d ∈ [[elemA, elemB], [elemA, elemB]], d = [elemA, elemB]) ∧
    ([[elemA, elemB], [elemA, elemB]].map
        (fun d => scrollContainerTargetId d 1000 800) =
      List.replicate ([[elemA, elemB], [elemA, elemB]] : List (List Elem)).length
        (contentScrollTargetId (findScrollableContainer [elemA, elemB] 1000 800))) :=
  ⟨by simp,
    scrollContainer_targets_of_stable_dom [elemA, elemB]
      [[elemA, elemB], [elemA, elemB]] 1000 800 (by simp)⟩

/-! ## Degenerate selections (`confirmSelection` / `onMouseUp`) -/

/-- The outcome of finishing or confirming a selection in the content
script. -/
inductive SelOutcome where
  /-- The selection was silently dropped: the overlay is removed and no
  message is sent to the background (no capture starts). -/
  | cancelled
  /-- `confirmSelection` sent `scrollSelectionComplete` with this rect:
  a capture is initiated. -/
  | capture (rect : SelRect)
  /-- `onMouseUp` accepted the drawn rect and entered adjust mode. -/
  | adjustMode (rect : SelRect)
  deriving DecidableEq, Repr

/-- `confirmSelection`: converts the kept viewport-space selection back
to content coordinates and, if either dimension is below 10px, removes
the overlay and returns without sending anything; otherwise it sends
`scrollSelectionComplete` (initiating the capture) and removes the
overlay.  Returns the outcome and whether the overlay was removed. -/
def confirmSelection (selLeft selTop selW selH : ℚ) (toDoc : ℚ → ℚ → ScrollPos) :
    SelOutcome × Bool :=
  let docCoords := toDoc selLeft selTop
  let rect : SelRect := { x := docCoords.x, y := docCoords.y, w := selW, h := selH }
  if rect.w < 10 ∨ rect.h < 10 then (.cancelled, true)
  else (.capture rect, true)

/-- The end-of-drawing branch of `onMouseUp`: computes the drawn rect
and, if either dimension is below 10px, removes the overlay and stops;
otherwise it enters adjust mode. -/
def onMouseUpFinish (startDocX startDocY currentDocX currentDocY : ℚ) :
    SelOutcome × Bool :=
  let rect : SelRect :=
    { x := min startDocX currentDocX
      y := min startDocY currentDocY
      w := |currentDocX - startDocX|
      h := |currentDocY - startDocY| }
  if rect.w < 10 ∨ rect.h < 10 then (.cancelled, true)
  else (.adjustMode rect, false)

/-- C7: a finished or confirmed selection below the 10px minimum in
either dimension is a silent no-op cancellation: no capture is
initiated (no `capture` outcome, hence no image at all) and the
selection overlay is removed. -/
theorem degenerateSelection_spec (selLeft selTop selW selH : ℚ)
    (toDoc : ℚ → ℚ → ScrollPos) (sx sy cx cy : ℚ)
    (hconf : selW < 10 ∨ selH < 10)
    (hdraw : |cx - sx| < 10 ∨ |cy - sy| < 10) :
    confirmSelection selLeft selTop selW selH toDoc = (.cancelled, true) ∧
    onMouseUpFinish sx sy cx cy = (.cancelled, true) := by
  constructor
  · rw [confirmSelection]
    exact if_pos hconf
  · rw [onMouseUpFinish]
    exact if_pos hdraw

/-- Witness for C7: a `5 × 5` selection is silently cancelled by both
paths. -/
theorem degenerateSelection_spec_witness :
    ((5 : ℚ) < 10 ∨ (5 : ℚ) < 10) ∧
    (|(25 : ℚ) - 20| < 10 ∨ |(35 : ℚ) - 30| < 10) ∧
    (confirmSelection 20 30 5 5 (fun a b => ⟨a, b⟩) = (.cancelled, true) ∧
      onMouseUpFinish 20 30 25 35 = (.cancelled, true)) :=
  ⟨Or.inl (by norm_num), Or.inl (by rw [abs_of_nonneg (by norm_num)]; norm_num),
    degenerateSelection_spec 20 30 5 5 (fun a b => ⟨a, b⟩) 20 30 25 35
      (Or.inl (by norm_num)) (Or.inl (by rw [abs_of_nonneg (by norm_num)]; norm_num))⟩

/-! ## Scroll-extent measurement (`getScrollInfo`, two variants) -/

/-- The height-related layout metrics of `document.body` and
`document.documentElement`. -/
structure DocMetrics where
  bodyScrollHeight : ℚ
  htmlScrollHeight : ℚ
  bodyOffsetHeight : ℚ
  htmlOffsetHeight : ℚ
  bodyClientHeight : ℚ
  htmlClientHeight : ℚ
  deriving DecidableEq, Repr

/-- The content script's `getScrollInfo().scrollHeight`:
`Math.max` over all six of scroll/offset/client height of `body` and
`documentElement`. -/
def contentScrollHeight (m : DocMetrics) : ℚ :=
  max (max (max (max (max m.bodyScrollHeight m.htmlScrollHeight)
    m.bodyOffsetHeight) m.htmlOffsetHeight) m.bodyClientHeight) m.htmlClientHeight

/-- The background script's injected `getScrollInfo().scrollHeight`
(the one `captureFullPage` actually uses):
`Math.max(document.body.scrollHeight, document.documentElement.scrollHeight)`
only. -/
def backgroundScrollHeight (m : DocMetrics) : ℚ :=
  max m.bodyScrollHeight m.htmlScrollHeight

/-- C8 (amended): the content-script measurement dominates all six
layout height metrics of `body` and `documentElement`; but the
measurement used by full-page capture (the background script's
injected `getScrollInfo`) is only the maximum of the two *scroll*
heights — it ignores offset and client heights, and is therefore only
a lower bound on the content-script value. -/
theorem getScrollInfo_measurements (m : DocMetrics) :
    m.bodyScrollHeight ≤ contentScrollHeight m ∧
    m.htmlScrollHeight ≤ contentScrollHeight m ∧
    m.bodyOffsetHeight ≤ contentScrollHeight m ∧
    m.htmlOffsetHeight ≤ contentScrollHeight m ∧
    m.bodyClientHeight ≤ contentScrollHeight m ∧
    m.htmlClientHeight ≤ contentScrollHeight m ∧
    m.bodyScrollHeight ≤ backgroundScrollHeight m ∧
    m.htmlScrollHeight ≤ backgroundScrollHeight m ∧
    backgroundScrollHeight m ≤ contentScrollHeight m := by
  rw [contentScrollHeight, backgroundScrollHeight]
  refine ⟨?_, ?_, ?_, ?_, ?_, ?_, le_max_left _ _, le_max_right _ _, ?_⟩ <;>
    simp [le_max_iff, le_refl]

/-- Counterexample to C8 as stated: on a document where
`body.offsetHeight = 500` exceeds both scroll heights (`100`), the
measurement used by full-page capture reports `100`, not the maximum
(`500`) of the scroll/offset/client metrics the claim describes. -/
theorem getScrollInfo_cex :
    backgroundScrollHeight ⟨100, 100, 500, 100, 100, 100⟩ = 100 ∧
    contentScrollHeight ⟨100, 100, 500, 100, 100, 100⟩ = 500 ∧
    (100 : ℚ) ≠ 500 := by
  refine ⟨?_, ?_, by norm_num⟩
  · rw [backgroundScrollHeight]
    norm_num
  · rw [contentScrollHeight]
    norm_num

/-! ## Viewport driver idempotence (`scrollTo`) -/

/-- The scroll state of one surface: current offset plus the browser's
clamping bounds (`scrollHeight - clientHeight`, never negative). -/
structure SurfaceState where
  scrollX : ℚ
  scrollY : ℚ
  maxScrollX : ℚ
  maxScrollY : ℚ
  deriving DecidableEq, Repr

/-- `element.scrollTo({top, left, behavior: instant})` /
`window.scrollTo` semantics: an instant jump to the target, clamped by
the browser into the scrollable range. -/
def scrollToSem (s : SurfaceState) (x y : ℚ) : SurfaceState :=
  { s with
    scrollX := max 0 (min x s.maxScrollX)
    scrollY := max 0 (min y s.maxScrollY) }

/-- The two scroll surfaces reachable from the content script's
`scrollTo(x, y)`: the window and the cached active container. -/
structure DualScrollState where
  win : SurfaceState
  container : SurfaceState
  deriving DecidableEq, Repr

/-- The content script's `scrollTo(x, y)`: if a container selection is
active, scroll the cached container, else scroll the window. -/
def scrollToDispatch (inContainer : Bool) (p : DualScrollState) (x y : ℚ) :
    DualScrollState :=
  if inContainer then { p with container := scrollToSem p.container x y }
  else { p with win := scrollToSem p.win x y }

/-- `getCurrentScroll()`: reads the active surface's offset. -/
def getCurrentScroll (inContainer : Bool) (p : DualScrollState) : ScrollPos :=
  if inContainer then ⟨p.container.scrollX, p.container.scrollY⟩
  else ⟨p.win.scrollX, p.win.scrollY⟩

/-- C9: scrolling is idempotent — for every surface (window or
container) and every target, calling `scrollTo(s, x, y)` twice in a row
leaves the whole scroll state, and hence every metric subsequently
read, identical to calling it once. -/
theorem scrollTo_idempotent (inContainer : Bool) (p : DualScrollState) (x y : ℚ) :
    scrollToDispatch inContainer (scrollToDispatch inContainer p x y) x y =
      scrollToDispatch inContainer p x y ∧
    getCurrentScroll inContainer
        (scrollToDispatch inContainer (scrollToDispatch inContainer p x y) x y) =
      getCurrentScroll inContainer (scrollToDispatch inContainer p x y) := by
  have h : scrollToDispatch inContainer (scrollToDispatch inContainer p x y) x y =
      scrollToDispatch inContainer p x y := by
    cases inContainer <;> simp [scrollToDispatch, scrollToSem]
  exact ⟨h, by rw [h]⟩
